import Mathlib

/-!
Shallow embedding of the deep-node-bot price-alert repository.

The repository contains three prototype variants of the same Telegram
price-alert bot:
* `Cg`  — `src/index.js`: single-chat bot, CoinGecko price source, no cache;
* `Grp` — `src/unnamed/part_000`, first file: per-group bot, DexScreener
  price source with a 2-minute cache, USD+INR formatting;
* `Dex` — `src/unnamed/part_000`, second file: single-chat bot, DexScreener
  price source with a 2-minute cache and a liquidity-based pair selection.

Prices are modelled as rationals (JS numbers); timestamps as integers
(milliseconds since epoch, the value of `Date.now()`).  Network effects are
modelled as explicit environment parameters: a fetch result per request.
Replies sent back to Telegram are modelled as structured values carrying the
data that the formatted message text interpolates.
-/

namespace DeepNodeBot

/-- An alert record: `{ low, high }`, each an optional threshold price.
`Cg` and `Dex` keep one global such record (`lowPriceAlert` /
`highPriceAlert`); `Grp` keeps one per chat id in `groupAlerts`. -/
structure AlertState where
  low : Option ℚ
  high : Option ℚ
deriving DecidableEq

/-- JS truthiness of a nullable number: `null` and `0` are falsy.
`lowFires p low` is the condition `lowPriceAlert && currentPrice <= lowPriceAlert`
of the cron handlers (NaN thresholds cannot be stored, so they are not
modelled). -/
def lowFires (p : ℚ) : Option ℚ → Bool
  | some l => decide (l ≠ 0) && decide (p ≤ l)
  | none => false

/-- The condition `highPriceAlert && currentPrice >= highPriceAlert` of the
cron handlers. -/
def highFires (p : ℚ) : Option ℚ → Bool
  | some h => decide (h ≠ 0) && decide (h ≤ p)
  | none => false

/-- Outcome of one evaluator pass over a single alert record: the updated
record and whether a low / high notification send was attempted. -/
structure EvalOut where
  alerts : AlertState
  lowSent : Bool
  highSent : Bool
deriving DecidableEq

/-- The webhook handlers render a threshold in the `/status` reply with
`x ? "$" + x : "Not set"`: a `0` threshold would display as unset (truthiness
again).  `shown` is the displayed value. -/
def shown : Option ℚ → Option ℚ
  | some l => if l = 0 then none else some l
  | none => none

/-- The text of an incoming Telegram message, after the string dispatch the
handlers perform on `messageText`.  `setlow`/`sethigh` carry the result of
`parseFloat(messageText.split(" ")[1])`: `none` models NaN (missing or
non-numeric argument).  `otherCmd` is any other text starting with `/`;
`plain` is non-command text. -/
inductive MsgText where
  | start
  | price
  | status
  | help
  | info
  | inrrate
  | clear
  | setlow (arg : Option ℚ)
  | sethigh (arg : Option ℚ)
  | otherCmd
  | plain
deriving DecidableEq

/-- Whether a message text is a bot command (starts with `/`). -/
def MsgText.isCommand : MsgText → Bool
  | .plain => false
  | _ => true

/-- Character-list version of `String.startsWith` used to define substring
containment. -/
def leadMatch : List Char → List Char → Bool
  | [], _ => true
  | _ :: _, [] => false
  | a :: as, b :: bs => a == b && leadMatch as bs

/-- Whether `needle` occurs as a contiguous run inside the second list. -/
def containsChars (needle : List Char) : List Char → Bool
  | [] => needle.isEmpty
  | c :: cs => leadMatch needle (c :: cs) || containsChars needle cs

/-- JS `hay.includes(sub)`. -/
def jsIncludes (hay sub : String) : Bool :=
  containsChars sub.toList hay.toList

/-- JS `s.toLowerCase()` (ASCII case folding suffices for the data here). -/
def lowerStr (s : String) : String :=
  ⟨s.toList.map Char.toLower⟩

/-- JS `s.replace(/\s+/g, '')`: remove all whitespace. -/
def stripWs (s : String) : String :=
  ⟨s.toList.filter (fun c => !c.isWhitespace)⟩

/-- One DexScreener trading-pair record, restricted to the fields the code
reads.  `priceUsd = none` models an absent/falsy `pair.priceUsd` (strings
parsing to NaN are not modelled); `liquidityUsd = none` models an absent
`pair.liquidity?.usd`.  `baseName`/`baseSymbol` are `baseToken?.name || ''`
and `baseToken?.symbol || ''`. -/
structure Pair where
  priceUsd : Option ℚ
  baseName : String
  baseSymbol : String
  liquidityUsd : Option ℚ
deriving DecidableEq

/-- `parseFloat(pair.liquidity?.usd || 0)`. -/
def liqOrZero (p : Pair) : ℚ :=
  p.liquidityUsd.getD 0

/-- First element of maximal key.  Models JS's stable
`sort((a, b) => keyB - keyA)` (descending) followed by taking index `[0]`:
the stable descending sort puts the first-occurring maximum first. -/
def bestBy {α : Type} (f : α → ℚ) : List α → Option α
  | [] => none
  | x :: xs =>
    match bestBy f xs with
    | none => some x
    | some y => if f y > f x then some y else some x

/-- Outcome of one DexScreener search request: the fetch or `response.json()`
throws, the response is not ok, or a body whose `pairs` array is given
(an absent `data.pairs` is modelled as the empty list). -/
inductive FetchResult where
  | throw
  | notOk
  | ok (pairs : List Pair)
deriving DecidableEq

/-- `CACHE_DURATION = 2 * 60 * 1000` (both DexScreener variants). -/
def CACHE_DURATION : ℤ := 2 * 60 * 1000

/-- The module-level price cache: `cachedPrice` / `cacheTime`. -/
structure CacheState where
  cachedPrice : Option ℚ
  cacheTime : ℤ
deriving DecidableEq

/-- `cachedPrice && (now - cacheTime) < CACHE_DURATION` (truthiness: a null
or zero cached price is not fresh). -/
def cacheFresh (c : CacheState) (now : ℤ) : Bool :=
  match c.cachedPrice with
  | some v => decide (v ≠ 0) && decide (now - c.cacheTime < CACHE_DURATION)
  | none => false

/-- Result of one `getDeepNodePrice` call: the returned value, the cache
state afterwards, and how many outbound provider requests were issued. -/
structure PriceResult where
  price : Option ℚ
  cache : CacheState
  requests : ℕ
deriving DecidableEq

namespace Cg

/-!
`src/index.js` — single-chat CoinGecko variant.
-/

/-- Outcome of the one CoinGecko request made by `getDeepNodePrice` in
`src/index.js`: the fetch (or `response.json()`) throws, the response is not
ok (status code recorded), or a parsed body whose `data.deepbook.usd` field
is `usd` (`none` models a missing `data.deepbook` or `.usd`). -/
inductive Fetch where
  | throw
  | notOk (status : ℕ)
  | ok (usd : Option ℚ)
deriving DecidableEq

/-- The body of the `try` block of `getDeepNodePrice` (`src/index.js`
lines 47-62), with thrown exceptions explicit: a non-ok response and a body
without a truthy `data.deepbook.usd` both `throw` (`usd = 0` is falsy, hence
also throws). -/
def body : Fetch → Except Unit ℚ
  | .throw => .error ()
  | .notOk _ => .error ()
  | .ok none => .error ()
  | .ok (some v) => if v = 0 then .error () else .ok v

/-- `getDeepNodePrice` of `src/index.js`, `catch` included: any throw in the
body is caught and turned into `null`. -/
def getDeepNodePrice (f : Fetch) : Option ℚ :=
  match body f with
  | .error _ => none
  | .ok v => some v

/-- `getDeepNodePrice` as its caller observes it in the exception model: the
`try`/`catch` wrapper never lets an error escape. -/
def getDeepNodePriceExc (f : Fetch) : Except Unit (Option ℚ) :=
  match body f with
  | .error _ => .ok none
  | .ok v => .ok (some v)

/-- One tick of the `cron.schedule` handler of `src/index.js` (lines 70-105).
`lowSendOk` / `highSendOk` are the acknowledgement outcomes of the underlying
Telegram sends; the source's `sendTelegramMessage` swallows its errors and
returns `undefined`, so the handler ignores these outcomes and clears a
crossed threshold unconditionally (`lowPriceAlert = null; // Reset after alert`). -/
def tick (f : Fetch) (lowSendOk highSendOk : Bool) (s : AlertState) : EvalOut :=
  match getDeepNodePrice f with
  | none => ⟨s, false, false⟩
  | some p =>
    let low2 := if lowFires p s.low then none else s.low
    let high2 := if highFires p s.high then none else s.high
    ⟨⟨low2, high2⟩, lowFires p s.low, highFires p s.high⟩

/-- A reply the `src/index.js` webhook handler sends back, carrying the
values the message text interpolates. -/
inductive Reply where
  | startR
  | rejectLow
  | ackLow (v : ℚ)
  | rejectHigh
  | ackHigh (v : ℚ)
  | statusR (low high : Option ℚ)
  | helpR
  | unknownR
deriving DecidableEq

/-- Result of the `app.post("/telegram")` handler of `src/index.js`: new
alert state, replies sent, HTTP status. -/
structure Out where
  alerts : AlertState
  replies : List Reply
  status : ℕ
deriving DecidableEq

/-- The `app.post("/telegram")` handler of `src/index.js` (lines 108-188).
`CHATID` is the configured `CHAT_ID` (a numeric chat id); `chatId` is
`req.body.message?.chat?.id` (`none` when absent — the loose comparison
`chatId != CHAT_ID` then mismatches); `text` is `none` when the message or
its text is absent or empty.  `/price`, `/clear`, `/info`, `/inrrate` are not
commands of this variant and fall through to the unknown-command branch. -/
def webhook (CHATID : ℤ) (chatId : Option ℤ) (text : Option MsgText)
    (s : AlertState) : Out :=
  match text with
  | none => ⟨s, [], 200⟩
  | some t =>
    if chatId ≠ some CHATID then ⟨s, [], 200⟩
    else
      match t with
      | .start => ⟨s, [.startR], 200⟩
      | .setlow none => ⟨s, [.rejectLow], 200⟩
      | .setlow (some v) =>
        if v ≤ 0 then ⟨s, [.rejectLow], 200⟩
        else ⟨⟨some v, s.high⟩, [.ackLow v], 200⟩
      | .sethigh none => ⟨s, [.rejectHigh], 200⟩
      | .sethigh (some v) =>
        if v ≤ 0 then ⟨s, [.rejectHigh], 200⟩
        else ⟨⟨s.low, some v⟩, [.ackHigh v], 200⟩
      | .status => ⟨s, [.statusR (shown s.low) (shown s.high)], 200⟩
      | .help => ⟨s, [.helpR], 200⟩
      | .price | .info | .inrrate | .clear | .otherCmd => ⟨s, [.unknownR], 200⟩
      | .plain => ⟨s, [], 200⟩

/-- An event of the `src/index.js` process: a cron tick (with its fetch
outcome and the send acknowledgements) or an incoming webhook message. -/
inductive Ev where
  | tick (f : Fetch) (lowSendOk highSendOk : Bool)
  | msg (chatId : Option ℤ) (text : Option MsgText)

/-- One step of the `src/index.js` state machine, also reporting whether a
low / high alert notification was attempted during the event. -/
def step (CHATID : ℤ) (s : AlertState) : Ev → AlertState × Bool × Bool
  | .tick f lo hi =>
    let r := tick f lo hi s
    (r.alerts, r.lowSent, r.highSent)
  | .msg c t => ((webhook CHATID c t s).alerts, false, false)

/-- Run a sequence of events. -/
def run (CHATID : ℤ) (s : AlertState) : List Ev → AlertState
  | [] => s
  | e :: es => run CHATID (step CHATID s e).1 es

/-- Whether any event of the sequence attempts a low-alert send. -/
def anyLowFire (CHATID : ℤ) (s : AlertState) : List Ev → Bool
  | [] => false
  | e :: es =>
    (step CHATID s e).2.1 || anyLowFire CHATID (step CHATID s e).1 es

/-- Whether any event of the sequence attempts a high-alert send. -/
def anyHighFire (CHATID : ℤ) (s : AlertState) : List Ev → Bool
  | [] => false
  | e :: es =>
    (step CHATID s e).2.2 || anyHighFire CHATID (step CHATID s e).1 es

/-- Whether an event is an accepted `/setlow` command: from the authorized
chat, with a parsed argument `> 0`. -/
def setsLowEv (CHATID : ℤ) : Ev → Bool
  | .msg c (some (.setlow (some v))) => decide (c = some CHATID) && decide (0 < v)
  | _ => false

/-- Whether an event is an accepted `/sethigh` command. -/
def setsHighEv (CHATID : ℤ) : Ev → Bool
  | .msg c (some (.sethigh (some v))) => decide (c = some CHATID) && decide (0 < v)
  | _ => false

end Cg

namespace Dex

/-!
`src/unnamed/part_000`, second file — single-chat DexScreener variant.
-/

/-- The six search terms tried in order (lines 503-510). -/
def searchTerms : List String :=
  ["deepnode", "deep node", "deep-book", "deep book", "deepnode coin",
   "deep node coin"]

/-- The `data.pairs.filter(...)` predicate of `getDeepNodePrice`
(lines 544-558): a truthy `priceUsd` parsing into `(0, 1000000]`, whose
lowercased base-token name or symbol contains the space-stripped lowercased
search term or the string `"deep"`. -/
def pairValid (term : String) (p : Pair) : Bool :=
  match p.priceUsd with
  | none => false
  | some price =>
    if price ≤ 0 ∨ price > 1000000 then false
    else
      let pairName := lowerStr p.baseName
      let pairSymbol := lowerStr p.baseSymbol
      let searchTerm := stripWs (lowerStr term)
      jsIncludes pairName searchTerm || jsIncludes pairSymbol searchTerm ||
        jsIncludes pairName "deep" || jsIncludes pairSymbol "deep"

/-- The `for (const term of searchTerms)` loop of `getDeepNodePrice`
(lines 515-590), accumulating `bestPrice`.  The source's update guard is
`!bestPrice || (bestPair.liquidity?.usd || 0) >
(bestPairInfo?.liquidity?.usd || 0)`; `bestPairInfo.liquidity` is the
`toFixed(2)` string, so `bestPairInfo?.liquidity?.usd` is `undefined` and
`(… || 0)` makes the right-hand side always 0 — a later term's best pair
overwrites the accumulated price whenever its own liquidity is positive.
The `!bestPrice` truthiness test is modelled as the accumulator being empty
(recorded prices are positive).  A thrown fetch aborts the whole loop
(`.error`, carrying the number of requests issued so far); there is no early
return on success — every term is searched. -/
def fetchLoop (env : String → FetchResult) :
    List String → Option ℚ → ℕ → Except ℕ (Option ℚ × ℕ)
  | [], best, cnt => .ok (best, cnt)
  | term :: rest, best, cnt =>
    match env term with
    | .throw => .error (cnt + 1)
    | .notOk => fetchLoop env rest best (cnt + 1)
    | .ok pairs =>
      if pairs.isEmpty then fetchLoop env rest best (cnt + 1)
      else
        let validPairs := pairs.filter (pairValid term)
        match bestBy liqOrZero validPairs with
        | none => fetchLoop env rest best (cnt + 1)
        | some bestPair =>
          let price := bestPair.priceUsd.getD 0
          let newBest :=
            match best with
            | none => some price
            | some bp =>
              if liqOrZero bestPair > 0 then some price else some bp
          fetchLoop env rest newBest (cnt + 1)

/-- The `try` body of `getDeepNodePrice` (lines 501-609), exceptions
explicit: on overall success the cache is overwritten, otherwise the cache is
untouched and `null` is produced. -/
def bodyExc (env : String → FetchResult) (now : ℤ) (c : CacheState) :
    Except ℕ PriceResult :=
  match fetchLoop env searchTerms none 0 with
  | .error cnt => .error cnt
  | .ok (some bestPrice, cnt) =>
    .ok ⟨some bestPrice, ⟨some bestPrice, now⟩, cnt⟩
  | .ok (none, cnt) => .ok ⟨none, c, cnt⟩

/-- `getDeepNodePrice` of the single-chat DexScreener variant
(lines 490-614): serve a fresh cache without any request, otherwise run the
search; the `catch` turns a thrown fetch into `null`. -/
def getDeepNodePrice (env : String → FetchResult) (now : ℤ) (c : CacheState) :
    PriceResult :=
  if cacheFresh c now then ⟨c.cachedPrice, c, 0⟩
  else
    match bodyExc env now c with
    | .ok r => r
    | .error cnt => ⟨none, c, cnt⟩

/-- `getDeepNodePrice` as its caller observes it in the exception model: the
`try`/`catch` wrapper never lets an error escape. -/
def getDeepNodePriceExc (env : String → FetchResult) (now : ℤ)
    (c : CacheState) : Except ℕ PriceResult :=
  if cacheFresh c now then .ok ⟨c.cachedPrice, c, 0⟩
  else
    match bodyExc env now c with
    | .ok r => .ok r
    | .error cnt => .ok ⟨none, c, cnt⟩

/-- One tick of the `cron.schedule` handler (lines 617-660).  This variant
captures `const success = await sendTelegramMessage(...)` and clears a
crossed threshold only `if (success)`. -/
def tick (env : String → FetchResult) (now : ℤ) (lowSendOk highSendOk : Bool)
    (c : CacheState) (s : AlertState) : CacheState × EvalOut :=
  let r := getDeepNodePrice env now c
  match r.price with
  | none => (r.cache, ⟨s, false, false⟩)
  | some p =>
    let low2 :=
      if lowFires p s.low then (if lowSendOk then none else s.low) else s.low
    let high2 :=
      if highFires p s.high then (if highSendOk then none else s.high)
      else s.high
    (r.cache, ⟨⟨low2, high2⟩, lowFires p s.low, highFires p s.high⟩)

/-- A reply the DexScreener-variant webhook handler sends, carrying the
interpolated data (`cur` is the price fetched for the message text;
`priceR none` is the could-not-fetch message). -/
inductive Reply where
  | startR
  | rejectLow
  | ackLow (v : ℚ) (cur : Option ℚ)
  | rejectHigh
  | ackHigh (v : ℚ) (cur : Option ℚ)
  | priceR (cur : Option ℚ)
  | statusR (cur : Option ℚ) (low high : Option ℚ)
  | helpR
  | infoR
  | unknownR
deriving DecidableEq

/-- Result of the DexScreener-variant webhook handler: cache state, alert
state, replies sent, HTTP status. -/
structure Out where
  cache : CacheState
  alerts : AlertState
  replies : List Reply
  status : ℕ
deriving DecidableEq

/-- The `app.post("/telegram")` handler of the single-chat DexScreener
variant (lines 663-797).  The authorization check is
`chatId.toString() !== CHAT_ID.toString()`; an absent `chatId`
(`chatId = none`) makes `.toString()` throw, which the surrounding `catch`
turns into the same observable outcome: no state change, no reply, 200.
Valid `/setlow`, `/sethigh`, `/price` and `/status` call `getDeepNodePrice`
to format their reply, so they may refresh the price cache. -/
def webhook (CHATID : ℤ) (chatId : Option ℤ) (text : Option MsgText)
    (env : String → FetchResult) (now : ℤ) (c : CacheState)
    (s : AlertState) : Out :=
  match text with
  | none => ⟨c, s, [], 200⟩
  | some t =>
    if chatId ≠ some CHATID then ⟨c, s, [], 200⟩
    else
      match t with
      | .start => ⟨c, s, [.startR], 200⟩
      | .setlow none => ⟨c, s, [.rejectLow], 200⟩
      | .setlow (some v) =>
        if v ≤ 0 then ⟨c, s, [.rejectLow], 200⟩
        else
          let r := getDeepNodePrice env now c
          ⟨r.cache, ⟨some v, s.high⟩, [.ackLow v r.price], 200⟩
      | .sethigh none => ⟨c, s, [.rejectHigh], 200⟩
      | .sethigh (some v) =>
        if v ≤ 0 then ⟨c, s, [.rejectHigh], 200⟩
        else
          let r := getDeepNodePrice env now c
          ⟨r.cache, ⟨s.low, some v⟩, [.ackHigh v r.price], 200⟩
      | .price =>
        let r := getDeepNodePrice env now c
        ⟨r.cache, s, [.priceR r.price], 200⟩
      | .status =>
        let r := getDeepNodePrice env now c
        ⟨r.cache, s, [.statusR r.price (shown s.low) (shown s.high)], 200⟩
      | .help => ⟨c, s, [.helpR], 200⟩
      | .info => ⟨c, s, [.infoR], 200⟩
      | .inrrate | .clear | .otherCmd => ⟨c, s, [.unknownR], 200⟩
      | .plain => ⟨c, s, [], 200⟩

end Dex

namespace Grp

/-!
`src/unnamed/part_000`, first file — per-group DexScreener variant with
USD+INR formatting.  The INR-rate fetch and cache only affect reply
formatting, never the alert store; they are not modelled.
-/

/-- The four search terms tried in order (line 120). -/
def searchTerms : List String :=
  ["deepnode", "deep node", "deep-book", "deep book"]

/-- The `data.pairs.find(...)` predicate (lines 136-138): a truthy
`priceUsd` parsing to a strictly positive number. -/
def validPos (p : Pair) : Bool :=
  match p.priceUsd with
  | some v => decide (0 < v)
  | none => false

/-- The search loop of the group variant's `getDeepNodePrice`
(lines 122-151): each term has its own inner `catch`, so a thrown fetch just
moves on to the next term, and the loop returns the first pair with a
positive price (no liquidity comparison, no name matching). -/
def fetchLoop (env : String → FetchResult) :
    List String → ℕ → Option ℚ × ℕ
  | [], cnt => (none, cnt)
  | term :: rest, cnt =>
    match env term with
    | .throw => fetchLoop env rest (cnt + 1)
    | .notOk => fetchLoop env rest (cnt + 1)
    | .ok pairs =>
      if pairs.isEmpty then fetchLoop env rest (cnt + 1)
      else
        match pairs.find? validPos with
        | some validPair => (some (validPair.priceUsd.getD 0), cnt + 1)
        | none => fetchLoop env rest (cnt + 1)

/-- `getDeepNodePrice` of the group variant (lines 108-160): fresh cache
served without a request; on success the cache is overwritten; on total
failure `null` is returned and the cache is untouched. -/
def getDeepNodePrice (env : String → FetchResult) (now : ℤ) (c : CacheState) :
    PriceResult :=
  if cacheFresh c now then ⟨c.cachedPrice, c, 0⟩
  else
    match fetchLoop env searchTerms 0 with
    | (some p, cnt) => ⟨some p, ⟨some p, now⟩, cnt⟩
    | (none, cnt) => ⟨none, c, cnt⟩

/-- Evaluation of one chat's alert record inside the group cron handler
(lines 188-214): the send result is ignored and a crossed threshold is
cleared unconditionally (`alerts.low = null` right after the `await`). -/
def tickOne (p : ℚ) (a : AlertState) : EvalOut :=
  let low2 := if lowFires p a.low then none else a.low
  let high2 := if highFires p a.high then none else a.high
  ⟨⟨low2, high2⟩, lowFires p a.low, highFires p a.high⟩

/-- The in-memory `groupAlerts` map, as an insertion-ordered association
list (JS `Map` iteration order). -/
abbrev Store := List (ℤ × AlertState)

/-- `groupAlerts.get(c)` composed with `groupAlerts.has(c)`. -/
def lookup (c : ℤ) : Store → Option AlertState
  | [] => none
  | (k, a) :: rest => if k = c then some a else lookup c rest

/-- `groupAlerts.set(c, a)` for a key already present (JS `Map.set` keeps
the original insertion position). -/
def setEntry (c : ℤ) (a' : AlertState) : Store → Store
  | [] => []
  | (k, a) :: rest =>
    if k = c then (k, a') :: rest else (k, a) :: setEntry c a' rest

/-- One tick of the group cron handler (lines 181-215): skip entirely when
the fetched USD price is `null`, otherwise evaluate every registered chat
against the single price.  The second component lists, per chat, whether a
low / high send was attempted. -/
def tick (usd : Option ℚ) (m : Store) : Store × List (ℤ × Bool × Bool) :=
  match usd with
  | none => (m, [])
  | some p =>
    (m.map (fun e => (e.1, (tickOne p e.2).alerts)),
     m.map (fun e => (e.1, (tickOne p e.2).lowSent, (tickOne p e.2).highSent)))

/-- A reply of the group webhook handler (interpolated price payloads come
from the price caches and are omitted; they never touch the alert store). -/
inductive Reply where
  | startR
  | rejectLow
  | ackLow (v : ℚ)
  | rejectHigh
  | ackHigh (v : ℚ)
  | priceR
  | statusR (low high : Option ℚ)
  | inrrateR
  | clearedR
  | helpR
  | unknownR
deriving DecidableEq

/-- Command dispatch of the group webhook handler (lines 238-403), acting on
the chat's alert record.  `/clear` nulls both fields but keeps the record;
`/info` is not a command of this variant and hits the unknown branch;
non-command text matches no branch. -/
def dispatch : MsgText → AlertState → AlertState × List Reply
  | .start, a => (a, [.startR])
  | .setlow none, a => (a, [.rejectLow])
  | .setlow (some v), a =>
    if v ≤ 0 then (a, [.rejectLow]) else (⟨some v, a.high⟩, [.ackLow v])
  | .sethigh none, a => (a, [.rejectHigh])
  | .sethigh (some v), a =>
    if v ≤ 0 then (a, [.rejectHigh]) else (⟨a.low, some v⟩, [.ackHigh v])
  | .price, a => (a, [.priceR])
  | .status, a => (a, [.statusR (shown a.low) (shown a.high)])
  | .inrrate, a => (a, [.inrrateR])
  | .clear, _ => (⟨none, none⟩, [.clearedR])
  | .help, a => (a, [.helpR])
  | .info, a => (a, [.unknownR])
  | .otherCmd, a => (a, [.unknownR])
  | .plain, a => (a, [])

/-- An incoming webhook message for the group variant: the sender chat id
and its text (`none` for an absent/empty `message.text`). -/
structure Msg where
  chatId : ℤ
  text : Option MsgText
deriving DecidableEq

/-- The `app.post("/telegram")` handler of the group variant
(lines 218-410).  Any message with text lazily creates the chat's alert
record (`if (!groupAlerts.has(chatId)) groupAlerts.set(chatId, {low: null,
high: null})`) before the command dispatch — including non-command text. -/
def webhook (msg : Option Msg) (m : Store) : Store × List Reply × ℕ :=
  match msg with
  | none => (m, [], 200)
  | some w =>
    match w.text with
    | none => (m, [], 200)
    | some t =>
      let m1 :=
        if (lookup w.chatId m).isSome then m
        else m ++ [(w.chatId, ⟨none, none⟩)]
      let a := (lookup w.chatId m1).getD ⟨none, none⟩
      let da := dispatch t a
      (setEntry w.chatId da.1 m1, da.2, 200)

/-- An event of the group-variant process: a cron tick (with the fetched USD
price) or an incoming webhook message. -/
inductive Ev where
  | tick (usd : Option ℚ)
  | msg (w : Option Msg)

/-- One step of the group-variant state machine on the alert store. -/
def step (m : Store) : Ev → Store
  | .tick u => (tick u m).1
  | .msg w => (webhook w m).1

/-- Run a sequence of events. -/
def run (m : Store) : List Ev → Store
  | [] => m
  | e :: es => run (step m e) es

/-- Whether an event is a message from chat `c` carrying text. -/
def hasTextFrom (c : ℤ) : Ev → Bool
  | .msg (some w) => decide (w.chatId = c) && w.text.isSome
  | _ => false

/-- The low threshold of chat `c` (`none` when the chat has no record). -/
def lowOf (c : ℤ) (m : Store) : Option ℚ :=
  match lookup c m with
  | some a => a.low
  | none => none

/-- The high threshold of chat `c`. -/
def highOf (c : ℤ) (m : Store) : Option ℚ :=
  match lookup c m with
  | some a => a.high
  | none => none

/-- Whether processing event `e` in store `m` attempts a low-alert send for
chat `c`. -/
def lowFiredFor (c : ℤ) (m : Store) : Ev → Bool
  | .tick (some p) => lowFires p (lowOf c m)
  | _ => false

/-- Whether processing event `e` attempts a high-alert send for chat `c`. -/
def highFiredFor (c : ℤ) (m : Store) : Ev → Bool
  | .tick (some p) => highFires p (highOf c m)
  | _ => false

/-- Whether any event of the sequence attempts a low-alert send for `c`. -/
def anyLowFireFor (c : ℤ) (m : Store) : List Ev → Bool
  | [] => false
  | e :: es => lowFiredFor c m e || anyLowFireFor c (step m e) es

/-- Whether any event of the sequence attempts a high-alert send for `c`. -/
def anyHighFireFor (c : ℤ) (m : Store) : List Ev → Bool
  | [] => false
  | e :: es => highFiredFor c m e || anyHighFireFor c (step m e) es

/-- Whether an event is an accepted `/setlow` from chat `c`. -/
def setsLowFor (c : ℤ) : Ev → Bool
  | .msg (some w) =>
    decide (w.chatId = c) &&
      (match w.text with
       | some (.setlow (some v)) => decide (0 < v)
       | _ => false)
  | _ => false

/-- Whether an event is an accepted `/sethigh` from chat `c`. -/
def setsHighFor (c : ℤ) : Ev → Bool
  | .msg (some w) =>
    decide (w.chatId = c) &&
      (match w.text with
       | some (.sethigh (some v)) => decide (0 < v)
       | _ => false)
  | _ => false

end Grp

/-!
Concrete provider data used to evaluate the embedding on closed inputs.
-/

/-- A DexScreener pair record with price 1 and liquidity 10. -/
def pairSmall : Pair := ⟨some 1, "DeepNode", "DEEP", some 10⟩

/-- A DexScreener pair record with price 2 and liquidity 100. -/
def pairBig : Pair := ⟨some 2, "DeepNode", "DEEP", some 100⟩

/-- A provider environment where the search term `"deepnode"` returns the
two records above (low-liquidity record first) and every other request gets
a non-ok response. -/
def envPairs : String → FetchResult :=
  fun t => if t = "deepnode" then .ok [pairSmall, pairBig] else .notOk

/-- A provider environment where the search term `"deepnode"` returns one
valid record (price 5, liquidity 1000) and every other request gets a non-ok
response. -/
def envOne : String → FetchResult :=
  fun t =>
    if t = "deepnode" then .ok [⟨some 5, "DeepNode", "DEEP", some 1000⟩]
    else .notOk

/-!
Helper lemmas.
-/

theorem bestBy_ne_none {α : Type} (f : α → ℚ) (x : α) (xs : List α) :
    bestBy f (x :: xs) ≠ none := by
  simp only [bestBy]
  cases hb : bestBy f xs with
  | none => simp
  | some y =>
    by_cases hgt : f y > f x
    · simp [hgt]
    · simp [hgt]

theorem bestBy_mem_le {α : Type} (f : α → ℚ) :
    ∀ (l : List α) (b : α), bestBy f l = some b →
      b ∈ l ∧ ∀ x ∈ l, f x ≤ f b := by
  intro l
  induction l with
  | nil => intro b h; simp [bestBy] at h
  | cons x xs ih =>
    intro b h
    simp only [bestBy] at h
    cases hb : bestBy f xs with
    | none =>
      simp only [hb] at h
      cases h
      have hxs : xs = [] := by
        cases xs with
        | nil => rfl
        | cons z zs => exact absurd hb (bestBy_ne_none f z zs)
      subst hxs
      simp
    | some y =>
      simp only [hb] at h
      rcases ih y hb with ⟨hmem, hle⟩
      split at h
      · rename_i hgt
        cases h
        refine ⟨List.mem_cons_of_mem x hmem, ?_⟩
        intro z hz
        rcases List.mem_cons.mp hz with rfl | hz'
        · exact le_of_lt hgt
        · exact hle z hz'
      · rename_i hgt
        cases h
        refine ⟨List.mem_cons_self x xs, ?_⟩
        intro z hz
        rcases List.mem_cons.mp hz with rfl | hz'
        · exact le_refl _
        · exact le_trans (hle z hz') (le_of_not_lt hgt)

theorem pairValid_pos (term : String) (p : Pair)
    (h : Dex.pairValid term p = true) : 0 < p.priceUsd.getD 0 := by
  unfold Dex.pairValid at h
  cases hp : p.priceUsd with
  | none => simp only [hp] at h; simp at h
  | some v =>
    simp only [hp, Option.getD_some]
    simp only [hp] at h
    split at h
    · simp at h
    · rename_i hc
      push_neg at hc
      exact hc.1

theorem fetchLoop_pos (env : String → FetchResult) :
    ∀ (ts : List String) (best : Option ℚ) (cnt : ℕ) (p : ℚ) (cnt' : ℕ),
      Dex.fetchLoop env ts best cnt = .ok (some p, cnt') →
      (∀ q, best = some q → 0 < q) → 0 < p := by
  intro ts
  induction ts with
  | nil =>
    intro best cnt p cnt' h hbest
    simp only [Dex.fetchLoop, Except.ok.injEq, Prod.mk.injEq] at h
    exact hbest p h.1
  | cons term rest ih =>
    intro best cnt p cnt' h hbest
    simp only [Dex.fetchLoop] at h
    split at h
    · exact absurd h (by simp)
    · exact ih _ _ _ _ h hbest
    · split at h
      · exact ih _ _ _ _ h hbest
      · split at h
        · exact ih _ _ _ _ h hbest
        · rename_i pairs heq hne bp hbb
          have hbpv : Dex.pairValid term bp = true :=
            (List.mem_filter.mp (bestBy_mem_le _ _ _ hbb).1).2
          have hpos := pairValid_pos term bp hbpv
          cases best with
          | none =>
            exact ih _ _ _ _ h (by intro q hq; cases hq; exact hpos)
          | some bq =>
            simp only at h
            split at h
            · exact ih _ _ _ _ h (by intro q hq; cases hq; exact hpos)
            · exact ih _ _ _ _ h
                (by intro q hq; cases hq; exact hbest _ rfl)

theorem validPos_pos (p : Pair) (h : Grp.validPos p = true) :
    0 < p.priceUsd.getD 0 := by
  unfold Grp.validPos at h
  cases hp : p.priceUsd with
  | none => simp only [hp] at h; simp at h
  | some v =>
    simp only [hp] at h
    simp only [hp, Option.getD_some]
    exact of_decide_eq_true h

theorem grpFetchLoop_pos (env : String → FetchResult) :
    ∀ (ts : List String) (cnt : ℕ) (p : ℚ) (cnt' : ℕ),
      Grp.fetchLoop env ts cnt = (some p, cnt') → 0 < p := by
  intro ts
  induction ts with
  | nil =>
    intro cnt p cnt' h
    simp [Grp.fetchLoop] at h
  | cons term rest ih =>
    intro cnt p cnt' h
    simp only [Grp.fetchLoop] at h
    split at h
    · exact ih _ _ _ h
    · exact ih _ _ _ h
    · split at h
      · exact ih _ _ _ h
      · split at h
        · rename_i pairs heq hne vp hfind
          simp only [Prod.mk.injEq, Option.some.injEq] at h
          rw [← h.1]
          exact validPos_pos vp (List.find?_some hfind)
        · exact ih _ _ _ h

theorem Dex_fetch_success_cache (env : String → FetchResult) (t1 : ℤ)
    (c : CacheState) (p : ℚ) (c' : CacheState) (n : ℕ)
    (h1 : Dex.getDeepNodePrice env t1 c = ⟨some p, c', n⟩) (hn : 0 < n) :
    c' = ⟨some p, t1⟩ ∧ 0 < p := by
  unfold Dex.getDeepNodePrice at h1
  split at h1
  · simp only [PriceResult.mk.injEq] at h1
    omega
  · cases hb : Dex.bodyExc env t1 c with
    | error cnt =>
      simp only [hb, PriceResult.mk.injEq] at h1
      simp at h1
    | ok r =>
      simp only [hb] at h1
      unfold Dex.bodyExc at hb
      cases hl : Dex.fetchLoop env Dex.searchTerms none 0 with
      | error cnt => simp only [hl] at hb; cases hb
      | ok pr =>
        obtain ⟨best, cnt⟩ := pr
        cases best with
        | none =>
          simp only [hl, Except.ok.injEq] at hb
          rw [← hb] at h1
          simp only [PriceResult.mk.injEq] at h1
          simp at h1
        | some bp =>
          simp only [hl, Except.ok.injEq] at hb
          rw [← hb] at h1
          simp only [PriceResult.mk.injEq, Option.some.injEq] at h1
          obtain ⟨hbp, hc', _⟩ := h1
          subst hbp
          exact ⟨hc'.symm, fetchLoop_pos env _ _ _ _ _ hl (by simp)⟩

theorem Grp_fetch_success_cache (env : String → FetchResult) (t1 : ℤ)
    (c : CacheState) (p : ℚ) (c' : CacheState) (n : ℕ)
    (h1 : Grp.getDeepNodePrice env t1 c = ⟨some p, c', n⟩) (hn : 0 < n) :
    c' = ⟨some p, t1⟩ ∧ 0 < p := by
  unfold Grp.getDeepNodePrice at h1
  split at h1
  · simp only [PriceResult.mk.injEq] at h1
    omega
  · cases hl : Grp.fetchLoop env Grp.searchTerms 0 with
    | mk res cnt =>
      cases res with
      | none =>
        simp only [hl, PriceResult.mk.injEq] at h1
        simp at h1
      | some q =>
        simp only [hl, PriceResult.mk.injEq, Option.some.injEq] at h1
        obtain ⟨hq, hc', _⟩ := h1
        subst hq
        exact ⟨hc'.symm, grpFetchLoop_pos env _ _ _ _ hl⟩

theorem cache_hit_dex (env2 : String → FetchResult) (t1 t2 : ℤ) (p : ℚ)
    (hp : 0 < p) (h2 : t2 - t1 < CACHE_DURATION) :
    Dex.getDeepNodePrice env2 t2 ⟨some p, t1⟩ = ⟨some p, ⟨some p, t1⟩, 0⟩ := by
  have hfresh : cacheFresh ⟨some p, t1⟩ t2 = true := by
    simp [cacheFresh, hp.ne', h2]
  simp [Dex.getDeepNodePrice, hfresh]

theorem cache_hit_grp (env2 : String → FetchResult) (t1 t2 : ℤ) (p : ℚ)
    (hp : 0 < p) (h2 : t2 - t1 < CACHE_DURATION) :
    Grp.getDeepNodePrice env2 t2 ⟨some p, t1⟩ = ⟨some p, ⟨some p, t1⟩, 0⟩ := by
  have hfresh : cacheFresh ⟨some p, t1⟩ t2 = true := by
    simp [cacheFresh, hp.ne', h2]
  simp [Grp.getDeepNodePrice, hfresh]

theorem lowFires_some (p : ℚ) (o : Option ℚ) (h : lowFires p o = true) :
    ∃ l, o = some l ∧ l ≠ 0 ∧ p ≤ l := by
  cases o with
  | none => simp [lowFires] at h
  | some l =>
    simp only [lowFires, Bool.and_eq_true, decide_eq_true_eq] at h
    exact ⟨l, rfl, h.1, h.2⟩

theorem highFires_some (p : ℚ) (o : Option ℚ) (h : highFires p o = true) :
    ∃ l, o = some l ∧ l ≠ 0 ∧ l ≤ p := by
  cases o with
  | none => simp [highFires] at h
  | some l =>
    simp only [highFires, Bool.and_eq_true, decide_eq_true_eq] at h
    exact ⟨l, rfl, h.1, h.2⟩

/-!
Claim theorems.
-/

/-- C1 counterexample: in `src/index.js`, on a tick where the price (4)
crosses the low threshold (5) and the underlying Telegram send reports
failure (`lowSendOk = false`), a send is attempted and the threshold is
nevertheless set to null — the claim requires it to remain `some 5`
(`sendTelegramMessage` there swallows errors and the handler clears
unconditionally). -/
theorem c1_counterexample :
    (Cg.tick (Cg.Fetch.ok (some 4)) false false ⟨some 5, none⟩).lowSent =
      true ∧
    (Cg.tick (Cg.Fetch.ok (some 4)) false false ⟨some 5, none⟩).alerts.low =
      none ∧
    (Cg.tick (Cg.Fetch.ok (some 4)) false false ⟨some 5, none⟩).alerts.low ≠
      some 5 := by
  decide

/-- C1 (amended): only the single-chat DexScreener variant clears a crossed
threshold if and only if the send reported success (on failure the threshold
is unchanged and stays armed); the CoinGecko variant (`src/index.js`) and
the group variant clear a crossed threshold unconditionally after the send
attempt, regardless of the send outcome. -/
theorem c1_threshold_cleared_iff_send_success :
    (∀ (env : String → FetchResult) (now : ℤ) (lowOk highOk : Bool)
       (c : CacheState) (s : AlertState) (p : ℚ),
       (Dex.getDeepNodePrice env now c).price = some p →
       (lowFires p s.low = true →
         (((Dex.tick env now lowOk highOk c s).2.alerts.low = none) ↔
           lowOk = true)) ∧
       (highFires p s.high = true →
         (((Dex.tick env now lowOk highOk c s).2.alerts.high = none) ↔
           highOk = true))) ∧
    (∀ (f : Cg.Fetch) (lowOk highOk : Bool) (s : AlertState) (p : ℚ),
       Cg.getDeepNodePrice f = some p →
       (lowFires p s.low = true →
         (Cg.tick f lowOk highOk s).alerts.low = none) ∧
       (highFires p s.high = true →
         (Cg.tick f lowOk highOk s).alerts.high = none)) ∧
    (∀ (p : ℚ) (a : AlertState),
       (lowFires p a.low = true → (Grp.tickOne p a).alerts.low = none) ∧
       (highFires p a.high = true →
         (Grp.tickOne p a).alerts.high = none)) := by
  refine ⟨?_, ?_, ?_⟩
  · intro env now lowOk highOk c s p hpr
    constructor
    · intro hl
      obtain ⟨l, hsl, hl0, hple⟩ := lowFires_some p s.low hl
      simp only [Dex.tick, hpr, hl]
      cases lowOk
      · simp [hsl]
      · simp
    · intro hh
      obtain ⟨l, hsl, hl0, hple⟩ := highFires_some p s.high hh
      simp only [Dex.tick, hpr, hh]
      cases highOk
      · simp [hsl]
      · simp
  · intro f lowOk highOk s p hpr
    constructor
    · intro hl
      simp [Cg.tick, hpr, hl]
    · intro hh
      simp [Cg.tick, hpr, hh]
  · intro p a
    constructor
    · intro hl
      simp [Grp.tickOne, hl]
    · intro hh
      simp [Grp.tickOne, hh]

/-- Witness for C1: on concrete inputs, the DexScreener-variant tick with a
failed low send leaves the low threshold armed (the clear-iff-success
equivalence with `lowOk = false`), while the CoinGecko tick and the group
per-chat evaluation clear a crossed low threshold. -/
theorem c1_threshold_cleared_iff_send_success_witness :
    (((Dex.tick envOne 0 false true ⟨none, 0⟩ ⟨some 7, none⟩).2.alerts.low =
        none) ↔ (false = true)) ∧
    (Cg.tick (Cg.Fetch.ok (some 4)) true true ⟨some 5, some 3⟩).alerts.low =
      none ∧
    (Grp.tickOne 4 ⟨some 5, none⟩).alerts.low = none :=
  ⟨(c1_threshold_cleared_iff_send_success.1 envOne 0 false true ⟨none, 0⟩
      ⟨some 7, none⟩ 5 (by decide)).1 (by decide),
   (c1_threshold_cleared_iff_send_success.2.1 (Cg.Fetch.ok (some 4)) true
      true ⟨some 5, some 3⟩ 4 (by decide)).1 (by decide),
   (c1_threshold_cleared_iff_send_success.2.2 4 ⟨some 5, none⟩).1
      (by decide)⟩

/-- C6: a `/setlow` or `/sethigh` whose parsed argument is NaN (missing or
non-numeric) or non-positive is answered with a rejection reply and changes
neither threshold — in both single-chat variants (the argument reaches the
handler from the authorized chat; the DexScreener variant also leaves the
price cache untouched on this path). -/
theorem c6_invalid_threshold_rejected :
    ∀ (CHATID : ℤ) (arg : Option ℚ) (s : AlertState)
      (env : String → FetchResult) (now : ℤ) (c : CacheState),
      (arg = none ∨ ∃ v, arg = some v ∧ v ≤ 0) →
      Cg.webhook CHATID (some CHATID) (some (.setlow arg)) s =
        ⟨s, [.rejectLow], 200⟩ ∧
      Cg.webhook CHATID (some CHATID) (some (.sethigh arg)) s =
        ⟨s, [.rejectHigh], 200⟩ ∧
      Dex.webhook CHATID (some CHATID) (some (.setlow arg)) env now c s =
        ⟨c, s, [.rejectLow], 200⟩ ∧
      Dex.webhook CHATID (some CHATID) (some (.sethigh arg)) env now c s =
        ⟨c, s, [.rejectHigh], 200⟩ := by
  intro CHATID arg s env now c harg
  rcases harg with rfl | ⟨v, rfl, hv⟩
  · refine ⟨?_, ?_, ?_, ?_⟩ <;> simp [Cg.webhook, Dex.webhook]
  · refine ⟨?_, ?_, ?_, ?_⟩ <;> simp [Cg.webhook, Dex.webhook, hv]

/-- Witness for C6: a missing argument on a concrete state is rejected with
no state change in all four handler paths. -/
theorem c6_invalid_threshold_rejected_witness :
    Cg.webhook 9 (some 9) (some (.setlow none)) ⟨some 1, none⟩ =
      ⟨⟨some 1, none⟩, [.rejectLow], 200⟩ ∧
    Cg.webhook 9 (some 9) (some (.sethigh none)) ⟨some 1, none⟩ =
      ⟨⟨some 1, none⟩, [.rejectHigh], 200⟩ ∧
    Dex.webhook 9 (some 9) (some (.setlow none)) envOne 0 ⟨none, 0⟩
        ⟨some 1, none⟩ =
      ⟨⟨none, 0⟩, ⟨some 1, none⟩, [.rejectLow], 200⟩ ∧
    Dex.webhook 9 (some 9) (some (.sethigh none)) envOne 0 ⟨none, 0⟩
        ⟨some 1, none⟩ =
      ⟨⟨none, 0⟩, ⟨some 1, none⟩, [.rejectHigh], 200⟩ :=
  c6_invalid_threshold_rejected 9 none ⟨some 1, none⟩ envOne 0 ⟨none, 0⟩
    (Or.inl rfl)

/-- C9: for every state, `/setlow 0.035` (= 7/200) followed immediately by
`/status` yields a status reply reporting the low threshold as 0.035 (the
high report being the display of the untouched prior high threshold), and
additionally, when no high threshold was previously set, the high threshold
as not set — in both single-chat variants (in the DexScreener variant the
status reply also carries the price fetched for display). -/
theorem c9_setlow_then_status :
    ∀ (CHATID : ℤ) (s : AlertState) (env : String → FetchResult) (now : ℤ)
      (c : CacheState),
      (Cg.webhook CHATID (some CHATID) (some .status)
          (Cg.webhook CHATID (some CHATID)
            (some (.setlow (some (7 / 200)))) s).alerts).replies =
        [.statusR (some (7 / 200)) (shown s.high)] ∧
      (Dex.webhook CHATID (some CHATID) (some .status) env now
          (Dex.webhook CHATID (some CHATID) (some (.setlow (some (7 / 200))))
            env now c s).cache
          (Dex.webhook CHATID (some CHATID) (some (.setlow (some (7 / 200))))
            env now c s).alerts).replies =
        [.statusR
          (Dex.getDeepNodePrice env now
            (Dex.webhook CHATID (some CHATID)
              (some (.setlow (some (7 / 200)))) env now c s).cache).price
          (some (7 / 200)) (shown s.high)] ∧
      (s.high = none →
        (Cg.webhook CHATID (some CHATID) (some .status)
            (Cg.webhook CHATID (some CHATID)
              (some (.setlow (some (7 / 200)))) s).alerts).replies =
          [.statusR (some (7 / 200)) none] ∧
        (Dex.webhook CHATID (some CHATID) (some .status) env now
            (Dex.webhook CHATID (some CHATID)
              (some (.setlow (some (7 / 200)))) env now c s).cache
            (Dex.webhook CHATID (some CHATID)
              (some (.setlow (some (7 / 200)))) env now c s).alerts).replies =
          [.statusR
            (Dex.getDeepNodePrice env now
              (Dex.webhook CHATID (some CHATID)
                (some (.setlow (some (7 / 200)))) env now c s).cache).price
            (some (7 / 200)) none]) := by
  intro CHATID s env now c
  refine ⟨?_, ?_, ?_⟩
  · norm_num [Cg.webhook, shown]
  · norm_num [Dex.webhook, shown]
  · intro hh
    constructor
    · norm_num [Cg.webhook, shown, hh]
    · norm_num [Dex.webhook, shown, hh]

/-- Witness for C9: the concrete command pair on a state that already has a
high threshold (low reported as 0.035 regardless) and on the empty alert
state (high reported as not set). -/
theorem c9_setlow_then_status_witness :
    (Cg.webhook 9 (some 9) (some .status)
        (Cg.webhook 9 (some 9)
          (some (.setlow (some (7 / 200)))) ⟨none, some 3⟩).alerts).replies =
      [.statusR (some (7 / 200)) (shown (some 3))] ∧
    (Cg.webhook 9 (some 9) (some .status)
        (Cg.webhook 9 (some 9)
          (some (.setlow (some (7 / 200)))) ⟨none, none⟩).alerts).replies =
      [.statusR (some (7 / 200)) none] ∧
    (Dex.webhook 9 (some 9) (some .status) envOne 0
        (Dex.webhook 9 (some 9) (some (.setlow (some (7 / 200)))) envOne 0
          ⟨none, 0⟩ ⟨none, none⟩).cache
        (Dex.webhook 9 (some 9) (some (.setlow (some (7 / 200)))) envOne 0
          ⟨none, 0⟩ ⟨none, none⟩).alerts).replies =
      [.statusR
        (Dex.getDeepNodePrice envOne 0
          (Dex.webhook 9 (some 9) (some (.setlow (some (7 / 200)))) envOne 0
            ⟨none, 0⟩ ⟨none, none⟩).cache).price
        (some (7 / 200)) none] :=
  ⟨(c9_setlow_then_status 9 ⟨none, some 3⟩ envOne 0 ⟨none, 0⟩).1,
   ((c9_setlow_then_status 9 ⟨none, none⟩ envOne 0 ⟨none, 0⟩).2.2 rfl).1,
   ((c9_setlow_then_status 9 ⟨none, none⟩ envOne 0 ⟨none, 0⟩).2.2 rfl).2⟩

/-- C10: in both single-chat variants, a webhook message with absent text or
a chat id different from the configured `CHAT_ID` (including an absent chat
id) changes no alert state, sends no message, and is answered with
HTTP 200 — the observable alert state is as if the message never arrived
(the DexScreener variant also leaves the price cache untouched). -/
theorem c10_unauthorized_message_noop :
    ∀ (CHATID : ℤ) (chatId : Option ℤ) (t : Option MsgText) (s : AlertState)
      (env : String → FetchResult) (now : ℤ) (c : CacheState),
      t = none ∨ chatId ≠ some CHATID →
      Cg.webhook CHATID chatId t s = ⟨s, [], 200⟩ ∧
      Dex.webhook CHATID chatId t env now c s = ⟨c, s, [], 200⟩ := by
  intro CHATID chatId t s env now c h
  rcases h with rfl | hne
  · exact ⟨rfl, rfl⟩
  · cases t with
    | none => exact ⟨rfl, rfl⟩
    | some t => exact ⟨by simp [Cg.webhook, hne], by simp [Dex.webhook, hne]⟩

/-- Witness for C10: a `/start` from a non-authorized chat id is a no-op
with a 200 response in both single-chat variants. -/
theorem c10_unauthorized_message_noop_witness :
    Cg.webhook 9 (some 8) (some .start) ⟨some 1, none⟩ =
      ⟨⟨some 1, none⟩, [], 200⟩ ∧
    Dex.webhook 9 (some 8) (some .start) envOne 0 ⟨none, 0⟩ ⟨some 1, none⟩ =
      ⟨⟨none, 0⟩, ⟨some 1, none⟩, [], 200⟩ :=
  c10_unauthorized_message_noop 9 (some 8) (some .start) ⟨some 1, none⟩
    envOne 0 ⟨none, 0⟩ (Or.inr (by decide))

/-- C3: when the price fetch returns null, the evaluator tick attempts no
notification send and leaves every threshold exactly as it was — in
`src/index.js` the tick returns the alert state unchanged with no send
attempts, and in the group variant the whole store is returned untouched
with an empty send list. -/
theorem c3_null_price_tick_noop :
    (∀ (f : Cg.Fetch) (lowOk highOk : Bool) (s : AlertState),
       Cg.getDeepNodePrice f = none →
       Cg.tick f lowOk highOk s = ⟨s, false, false⟩) ∧
    (∀ m : Grp.Store, Grp.tick none m = (m, [])) := by
  constructor
  · intro f lowOk highOk s h
    unfold Cg.tick
    rw [h]
  · intro m
    rfl

/-- Witness for C3: a throwing CoinGecko fetch yields a no-op tick on a
concrete alert state, and a null price is a no-op on a concrete group
store. -/
theorem c3_null_price_tick_noop_witness :
    Cg.tick Cg.Fetch.throw false false ⟨some 1, some 2⟩ =
      ⟨⟨some 1, some 2⟩, false, false⟩ ∧
    Grp.tick none [(1, ⟨some 1, none⟩)] = ([(1, ⟨some 1, none⟩)], []) :=
  ⟨c3_null_price_tick_noop.1 Cg.Fetch.throw false false ⟨some 1, some 2⟩
      (by decide),
   c3_null_price_tick_noop.2 [(1, ⟨some 1, none⟩)]⟩

/-- C4 counterexample: in the single-chat DexScreener variant a pair of
`getDeepNodePrice` calls — the first succeeding at time 0 on a cold cache,
the second at time 1 (well within the 2-minute TTL) — does serve the second
call from the cache with zero requests, but the two calls together issue 6
outbound provider requests (one per search term; the loop never stops
early), not exactly one as the claim states. -/
theorem c4_counterexample :
    (Dex.getDeepNodePrice envOne 0 ⟨none, 0⟩).price.isSome = true ∧
    (Dex.getDeepNodePrice envOne 1
        (Dex.getDeepNodePrice envOne 0 ⟨none, 0⟩).cache).price =
      (Dex.getDeepNodePrice envOne 0 ⟨none, 0⟩).price ∧
    (Dex.getDeepNodePrice envOne 1
        (Dex.getDeepNodePrice envOne 0 ⟨none, 0⟩).cache).requests = 0 ∧
    (Dex.getDeepNodePrice envOne 0 ⟨none, 0⟩).requests +
        (Dex.getDeepNodePrice envOne 1
          (Dex.getDeepNodePrice envOne 0 ⟨none, 0⟩).cache).requests ≠ 1 := by
  decide

/-- C4 (amended): in the variants that maintain a price cache (both
DexScreener variants; `src/index.js` has no cache), whenever a
`getDeepNodePrice` call succeeds by actually fetching (at least one request)
at time `t1`, any second call within the cache TTL of `t1` returns the same
cached value and issues zero outbound provider requests — so the pair of
calls issues exactly as many requests as the first call alone. -/
theorem c4_second_call_served_from_cache :
    (∀ (env env2 : String → FetchResult) (t1 t2 : ℤ) (c : CacheState)
       (p : ℚ) (c' : CacheState) (n : ℕ),
       Dex.getDeepNodePrice env t1 c = ⟨some p, c', n⟩ → 0 < n →
       t2 - t1 < CACHE_DURATION →
       Dex.getDeepNodePrice env2 t2 c' = ⟨some p, c', 0⟩) ∧
    (∀ (env env2 : String → FetchResult) (t1 t2 : ℤ) (c : CacheState)
       (p : ℚ) (c' : CacheState) (n : ℕ),
       Grp.getDeepNodePrice env t1 c = ⟨some p, c', n⟩ → 0 < n →
       t2 - t1 < CACHE_DURATION →
       Grp.getDeepNodePrice env2 t2 c' = ⟨some p, c', 0⟩) := by
  constructor
  · intro env env2 t1 t2 c p c' n h1 hn h2
    obtain ⟨hc', hp⟩ := Dex_fetch_success_cache env t1 c p c' n h1 hn
    subst hc'
    exact cache_hit_dex env2 t1 t2 p hp h2
  · intro env env2 t1 t2 c p c' n h1 hn h2
    obtain ⟨hc', hp⟩ := Grp_fetch_success_cache env t1 c p c' n h1 hn
    subst hc'
    exact cache_hit_grp env2 t1 t2 p hp h2

/-- Witness for C4: concrete second calls served from the cache built by a
concrete successful first call (6 requests in the single-chat variant, 1 in
the group variant). -/
theorem c4_second_call_served_from_cache_witness :
    Dex.getDeepNodePrice envOne 1 ⟨some 5, 0⟩ = ⟨some 5, ⟨some 5, 0⟩, 0⟩ ∧
    Grp.getDeepNodePrice envOne 1 ⟨some 5, 0⟩ = ⟨some 5, ⟨some 5, 0⟩, 0⟩ :=
  ⟨c4_second_call_served_from_cache.1 envOne envOne 0 1 ⟨none, 0⟩ 5
      ⟨some 5, 0⟩ 6 (by decide) (by decide) (by decide),
   c4_second_call_served_from_cache.2 envOne envOne 0 1 ⟨none, 0⟩ 5
      ⟨some 5, 0⟩ 1 (by decide) (by decide) (by decide)⟩

/-- C7: `getDeepNodePrice` never throws to its caller — in the exception
model the `try`/`catch`-wrapped function always produces `Except.ok`, and
its value is exactly the price-or-null the total embedding computes.  This
covers the CoinGecko variant (`src/index.js`) and the single-chat
DexScreener variant for every environment, including total provider
failure. -/
theorem c7_getprice_total_never_throws :
    (∀ f : Cg.Fetch, ∃ o : Option ℚ,
       Cg.getDeepNodePriceExc f = .ok o ∧ Cg.getDeepNodePrice f = o) ∧
    (∀ (env : String → FetchResult) (now : ℤ) (c : CacheState),
       ∃ r : PriceResult,
         Dex.getDeepNodePriceExc env now c = .ok r ∧
         Dex.getDeepNodePrice env now c = r) := by
  constructor
  · intro f
    refine ⟨Cg.getDeepNodePrice f, ?_, rfl⟩
    unfold Cg.getDeepNodePriceExc Cg.getDeepNodePrice
    cases Cg.body f <;> rfl
  · intro env now c
    refine ⟨Dex.getDeepNodePrice env now c, ?_, rfl⟩
    unfold Dex.getDeepNodePriceExc Dex.getDeepNodePrice
    split
    · rfl
    · cases Dex.bodyExc env now c <;> rfl

/-- C5 counterexample: in the group variant, for a provider response with
two records both passing the positive-price filter, the record with the
highest reported liquidity is `pairBig` (liquidity 100, price 2), yet
`getDeepNodePrice` returns the price of the first record (`pairSmall`,
liquidity 10, price 1) — it performs no liquidity comparison. -/
theorem c5_counterexample :
    (Grp.getDeepNodePrice envPairs 0 ⟨none, 0⟩).price = some 1 ∧
    bestBy liqOrZero ([pairSmall, pairBig].filter Grp.validPos) =
      some pairBig ∧
    pairBig.priceUsd = some 2 ∧
    (Grp.getDeepNodePrice envPairs 0 ⟨none, 0⟩).price ≠ some 2 := by
  decide

/-- C5 (amended): in the single-chat DexScreener variant, for a provider
response on the first search term (the others failing), `getDeepNodePrice`
returns the price of a record of maximal reported liquidity among the
records passing its filter (positive price capped at 1000000 and a
name/symbol match); the group variant instead returns the price of the
first record with a strictly positive quoted price, with no liquidity
comparison. -/
theorem c5_selection_policy :
    (∀ (env : String → FetchResult) (now : ℤ) (c : CacheState)
       (pairs : List Pair) (b : Pair),
       env "deepnode" = .ok pairs →
       env "deep node" = .notOk →
       env "deep-book" = .notOk →
       env "deep book" = .notOk →
       env "deepnode coin" = .notOk →
       env "deep node coin" = .notOk →
       c.cachedPrice = none →
       bestBy liqOrZero (pairs.filter (Dex.pairValid "deepnode")) = some b →
       (Dex.getDeepNodePrice env now c).price = some (b.priceUsd.getD 0) ∧
       b ∈ pairs.filter (Dex.pairValid "deepnode") ∧
       ∀ x ∈ pairs.filter (Dex.pairValid "deepnode"),
         liqOrZero x ≤ liqOrZero b) ∧
    (∀ (env : String → FetchResult) (now : ℤ) (c : CacheState)
       (pairs : List Pair) (p : Pair),
       env "deepnode" = .ok pairs →
       c.cachedPrice = none →
       pairs.find? Grp.validPos = some p →
       (Grp.getDeepNodePrice env now c).price =
         some (p.priceUsd.getD 0)) := by
  constructor
  · intro env now c pairs b h1 h2 h3 h4 h5 h6 hc hbest
    have hfresh : cacheFresh c now = false := by simp [cacheFresh, hc]
    have hne : pairs.isEmpty = false := by
      cases pairs with
      | nil => simp [bestBy] at hbest
      | cons a as => rfl
    have hloop : Dex.fetchLoop env Dex.searchTerms none 0 =
        .ok (some (b.priceUsd.getD 0), 6) := by
      simp only [Dex.searchTerms, Dex.fetchLoop, h1, h2, h3, h4, h5, h6, hne,
        hbest, Bool.false_eq_true, if_false]
    refine ⟨?_, (bestBy_mem_le _ _ _ hbest).1, (bestBy_mem_le _ _ _ hbest).2⟩
    simp [Dex.getDeepNodePrice, Dex.bodyExc, hfresh, hloop]
  · intro env now c pairs p h1 hc hfind
    have hfresh : cacheFresh c now = false := by simp [cacheFresh, hc]
    have hne : pairs.isEmpty = false := by
      cases pairs with
      | nil => simp at hfind
      | cons a as => rfl
    simp [Grp.getDeepNodePrice, Grp.fetchLoop, Grp.searchTerms, h1, hne,
      hfind, hfresh]

/-- Witness for C5: on the two-record response, the DexScreener variant
returns the maximal-liquidity record's price (2) while the group variant
returns the first positive-price record's price (1). -/
theorem c5_selection_policy_witness :
    (Dex.getDeepNodePrice envPairs 0 ⟨none, 0⟩).price =
      some (pairBig.priceUsd.getD 0) ∧
    pairBig ∈ [pairSmall, pairBig].filter (Dex.pairValid "deepnode") ∧
    (∀ x ∈ [pairSmall, pairBig].filter (Dex.pairValid "deepnode"),
       liqOrZero x ≤ liqOrZero pairBig) ∧
    (Grp.getDeepNodePrice envPairs 0 ⟨none, 0⟩).price =
      some (pairSmall.priceUsd.getD 0) :=
  have hd := c5_selection_policy.1 envPairs 0 ⟨none, 0⟩ [pairSmall, pairBig]
    pairBig (by decide) (by decide) (by decide) (by decide) (by decide)
    (by decide) rfl (by decide)
  have hg := c5_selection_policy.2 envPairs 0 ⟨none, 0⟩ [pairSmall, pairBig]
    pairSmall (by decide) rfl (by decide)
  ⟨hd.1, hd.2.1, hd.2.2, hg⟩

theorem Grp_lookup_append (c d : ℤ) (x : AlertState) :
    ∀ m : Grp.Store, Grp.lookup c (m ++ [(d, x)]) =
      match Grp.lookup c m with
      | some a => some a
      | none => if d = c then some x else none := by
  intro m
  induction m with
  | nil => simp [Grp.lookup]
  | cons e rest ih =>
    obtain ⟨k, a⟩ := e
    by_cases hk : k = c
    · simp [Grp.lookup, hk]
    · simp [Grp.lookup, hk, ih]

theorem Grp_lookup_setEntry_self (c : ℤ) (a' : AlertState) :
    ∀ m : Grp.Store, Grp.lookup c (Grp.setEntry c a' m) =
      (Grp.lookup c m).map (fun _ => a') := by
  intro m
  induction m with
  | nil => simp [Grp.lookup, Grp.setEntry]
  | cons e rest ih =>
    obtain ⟨k, a⟩ := e
    by_cases hk : k = c
    · simp [Grp.lookup, Grp.setEntry, hk]
    · simp [Grp.lookup, Grp.setEntry, hk, ih]

theorem Grp_lookup_setEntry_ne (c d : ℤ) (a' : AlertState) (hne : d ≠ c) :
    ∀ m : Grp.Store, Grp.lookup c (Grp.setEntry d a' m) = Grp.lookup c m := by
  intro m
  induction m with
  | nil => simp [Grp.setEntry]
  | cons e rest ih =>
    obtain ⟨k, a⟩ := e
    by_cases hk : k = d
    · subst hk
      have hkc : k ≠ c := hne
      simp [Grp.setEntry, Grp.lookup, hkc]
    · have hcd : ¬ c = d := fun h => hne h.symm
      by_cases hkc : k = c
      · simp [Grp.setEntry, Grp.lookup, hk, hkc, hcd]
      · simp [Grp.setEntry, Grp.lookup, hk, hkc, ih]

theorem Grp_lookup_tick_store (c : ℤ) (p : ℚ) :
    ∀ m : Grp.Store,
      Grp.lookup c (m.map (fun e => (e.1, (Grp.tickOne p e.2).alerts))) =
        (Grp.lookup c m).map (fun a => (Grp.tickOne p a).alerts) := by
  intro m
  induction m with
  | nil => simp [Grp.lookup]
  | cons e rest ih =>
    obtain ⟨k, a⟩ := e
    by_cases hk : k = c
    · simp [Grp.lookup, hk]
    · simp [Grp.lookup, hk, ih]

theorem Grp_webhook_lowOf (cid : ℤ) (t : MsgText) (m : Grp.Store) (c : ℤ) :
    Grp.lowOf c (Grp.webhook (some ⟨cid, some t⟩) m).1 =
      if cid = c then
        (Grp.dispatch t ((Grp.lookup c m).getD ⟨none, none⟩)).1.low
      else Grp.lowOf c m := by
  simp only [Grp.webhook]
  by_cases hcid : cid = c
  · subst hcid
    cases hl : Grp.lookup cid m with
    | some a0 =>
      simp only [hl, Option.isSome_some, if_true, if_pos rfl, Grp.lowOf,
        Grp_lookup_setEntry_self, Option.getD_some]
      simp [hl]
    | none =>
      simp only [hl, Option.isSome_none, Bool.false_eq_true, if_false,
        if_pos rfl, Grp.lowOf, Grp_lookup_setEntry_self, Grp_lookup_append,
        hl]
      simp
  · simp only [if_neg hcid, Grp.lowOf, Grp_lookup_setEntry_ne _ _ _ hcid]
    cases hsome : (Grp.lookup cid m).isSome
    · simp only [Bool.false_eq_true, if_false, Grp_lookup_append]
      cases Grp.lookup c m <;> simp [hcid]
    · simp

theorem Grp_webhook_highOf (cid : ℤ) (t : MsgText) (m : Grp.Store) (c : ℤ) :
    Grp.highOf c (Grp.webhook (some ⟨cid, some t⟩) m).1 =
      if cid = c then
        (Grp.dispatch t ((Grp.lookup c m).getD ⟨none, none⟩)).1.high
      else Grp.highOf c m := by
  simp only [Grp.webhook]
  by_cases hcid : cid = c
  · subst hcid
    cases hl : Grp.lookup cid m with
    | some a0 =>
      simp only [hl, Option.isSome_some, if_true, if_pos rfl, Grp.highOf,
        Grp_lookup_setEntry_self, Option.getD_some]
      simp [hl]
    | none =>
      simp only [hl, Option.isSome_none, Bool.false_eq_true, if_false,
        if_pos rfl, Grp.highOf, Grp_lookup_setEntry_self, Grp_lookup_append,
        hl]
      simp
  · simp only [if_neg hcid, Grp.highOf, Grp_lookup_setEntry_ne _ _ _ hcid]
    cases hsome : (Grp.lookup cid m).isSome
    · simp only [Bool.false_eq_true, if_false, Grp_lookup_append]
      cases Grp.lookup c m <;> simp [hcid]
    · simp

theorem Grp_dispatch_low_none (t : MsgText) (a : AlertState)
    (ha : a.low = none)
    (ht : ∀ v : ℚ, t = MsgText.setlow (some v) → v ≤ 0) :
    (Grp.dispatch t a).1.low = none := by
  cases t
  case setlow arg =>
    cases arg with
    | none => simpa [Grp.dispatch] using ha
    | some v =>
      have hv := ht v rfl
      simpa [Grp.dispatch, hv] using ha
  case sethigh arg =>
    cases arg with
    | none => simpa [Grp.dispatch] using ha
    | some v =>
      by_cases hv : v ≤ 0
      · simpa [Grp.dispatch, hv] using ha
      · simpa [Grp.dispatch, hv] using ha
  all_goals simpa [Grp.dispatch] using ha

theorem Grp_dispatch_high_none (t : MsgText) (a : AlertState)
    (ha : a.high = none)
    (ht : ∀ v : ℚ, t = MsgText.sethigh (some v) → v ≤ 0) :
    (Grp.dispatch t a).1.high = none := by
  cases t
  case sethigh arg =>
    cases arg with
    | none => simpa [Grp.dispatch] using ha
    | some v =>
      have hv := ht v rfl
      simpa [Grp.dispatch, hv] using ha
  case setlow arg =>
    cases arg with
    | none => simpa [Grp.dispatch] using ha
    | some v =>
      by_cases hv : v ≤ 0
      · simpa [Grp.dispatch, hv] using ha
      · simpa [Grp.dispatch, hv] using ha
  all_goals simpa [Grp.dispatch] using ha

theorem Grp_step_lowOf_none (c : ℤ) (m : Grp.Store) (e : Grp.Ev)
    (hs : Grp.lowOf c m = none) (he : Grp.setsLowFor c e = false) :
    Grp.lowOf c (Grp.step m e) = none ∧ Grp.lowFiredFor c m e = false := by
  cases e with
  | tick u =>
    cases u with
    | none => exact ⟨hs, rfl⟩
    | some p =>
      refine ⟨?_, by simp [Grp.lowFiredFor, hs, lowFires]⟩
      simp only [Grp.step, Grp.tick, Grp.lowOf, Grp_lookup_tick_store]
      cases hl : Grp.lookup c m with
      | none => simp
      | some a =>
        have ha : a.low = none := by simpa [Grp.lowOf, hl] using hs
        simp [Grp.tickOne, ha, lowFires]
  | msg w =>
    refine ⟨?_, rfl⟩
    cases w with
    | none => exact hs
    | some w =>
      obtain ⟨cid, txt⟩ := w
      cases txt with
      | none => exact hs
      | some t =>
        simp only [Grp.step]
        rw [Grp_webhook_lowOf]
        by_cases hcid : cid = c
        · subst hcid
          rw [if_pos rfl]
          apply Grp_dispatch_low_none
          · cases hl : Grp.lookup cid m with
            | none => simp
            | some a =>
              have ha : a.low = none := by simpa [Grp.lowOf, hl] using hs
              simpa [hl] using ha
          · intro v hv
            subst hv
            simp [Grp.setsLowFor] at he
            exact he
        · rw [if_neg hcid]
          exact hs

theorem Grp_step_highOf_none (c : ℤ) (m : Grp.Store) (e : Grp.Ev)
    (hs : Grp.highOf c m = none) (he : Grp.setsHighFor c e = false) :
    Grp.highOf c (Grp.step m e) = none ∧ Grp.highFiredFor c m e = false := by
  cases e with
  | tick u =>
    cases u with
    | none => exact ⟨hs, rfl⟩
    | some p =>
      refine ⟨?_, by simp [Grp.highFiredFor, hs, highFires]⟩
      simp only [Grp.step, Grp.tick, Grp.highOf, Grp_lookup_tick_store]
      cases hl : Grp.lookup c m with
      | none => simp
      | some a =>
        have ha : a.high = none := by simpa [Grp.highOf, hl] using hs
        simp [Grp.tickOne, ha, highFires]
  | msg w =>
    refine ⟨?_, rfl⟩
    cases w with
    | none => exact hs
    | some w =>
      obtain ⟨cid, txt⟩ := w
      cases txt with
      | none => exact hs
      | some t =>
        simp only [Grp.step]
        rw [Grp_webhook_highOf]
        by_cases hcid : cid = c
        · subst hcid
          rw [if_pos rfl]
          apply Grp_dispatch_high_none
          · cases hl : Grp.lookup cid m with
            | none => simp
            | some a =>
              have ha : a.high = none := by simpa [Grp.highOf, hl] using hs
              simpa [hl] using ha
          · intro v hv
            subst hv
            simp [Grp.setsHighFor] at he
            exact he
        · rw [if_neg hcid]
          exact hs

theorem Cg_step_low_none (CHATID : ℤ) (s : AlertState) (e : Cg.Ev)
    (hs : s.low = none) (he : Cg.setsLowEv CHATID e = false) :
    (Cg.step CHATID s e).1.low = none ∧ (Cg.step CHATID s e).2.1 = false := by
  cases e with
  | tick f lo hi =>
    cases hp : Cg.getDeepNodePrice f with
    | none => simp [Cg.step, Cg.tick, hp, hs]
    | some p =>
      constructor
      · simp [Cg.step, Cg.tick, hp, hs, lowFires]
      · simp [Cg.step, Cg.tick, hp, hs, lowFires]
  | msg cid t =>
    refine ⟨?_, rfl⟩
    cases t with
    | none => simpa [Cg.step, Cg.webhook] using hs
    | some t =>
      by_cases hcid : cid = some CHATID
      · cases t with
        | setlow arg =>
          cases arg with
          | none => simpa [Cg.step, Cg.webhook, hcid] using hs
          | some v =>
            have hv : v ≤ 0 := by
              rw [hcid] at he
              simp [Cg.setsLowEv] at he
              exact he
            simpa [Cg.step, Cg.webhook, hcid, hv] using hs
        | sethigh arg =>
          cases arg with
          | none => simpa [Cg.step, Cg.webhook, hcid] using hs
          | some v =>
            by_cases hv : v ≤ 0
            · simpa [Cg.step, Cg.webhook, hcid, hv] using hs
            · simpa [Cg.step, Cg.webhook, hcid, hv] using hs
        | start => simpa [Cg.step, Cg.webhook, hcid] using hs
        | price => simpa [Cg.step, Cg.webhook, hcid] using hs
        | status => simpa [Cg.step, Cg.webhook, hcid] using hs
        | help => simpa [Cg.step, Cg.webhook, hcid] using hs
        | info => simpa [Cg.step, Cg.webhook, hcid] using hs
        | inrrate => simpa [Cg.step, Cg.webhook, hcid] using hs
        | clear => simpa [Cg.step, Cg.webhook, hcid] using hs
        | otherCmd => simpa [Cg.step, Cg.webhook, hcid] using hs
        | plain => simpa [Cg.step, Cg.webhook, hcid] using hs
      · simpa [Cg.step, Cg.webhook, hcid] using hs

theorem Cg_step_high_none (CHATID : ℤ) (s : AlertState) (e : Cg.Ev)
    (hs : s.high = none) (he : Cg.setsHighEv CHATID e = false) :
    (Cg.step CHATID s e).1.high = none ∧
      (Cg.step CHATID s e).2.2 = false := by
  cases e with
  | tick f lo hi =>
    cases hp : Cg.getDeepNodePrice f with
    | none => simp [Cg.step, Cg.tick, hp, hs]
    | some p =>
      constructor
      · simp [Cg.step, Cg.tick, hp, hs, highFires]
      · simp [Cg.step, Cg.tick, hp, hs, highFires]
  | msg cid t =>
    refine ⟨?_, rfl⟩
    cases t with
    | none => simpa [Cg.step, Cg.webhook] using hs
    | some t =>
      by_cases hcid : cid = some CHATID
      · cases t with
        | sethigh arg =>
          cases arg with
          | none => simpa [Cg.step, Cg.webhook, hcid] using hs
          | some v =>
            have hv : v ≤ 0 := by
              rw [hcid] at he
              simp [Cg.setsHighEv] at he
              exact he
            simpa [Cg.step, Cg.webhook, hcid, hv] using hs
        | setlow arg =>
          cases arg with
          | none => simpa [Cg.step, Cg.webhook, hcid] using hs
          | some v =>
            by_cases hv : v ≤ 0
            · simpa [Cg.step, Cg.webhook, hcid, hv] using hs
            · simpa [Cg.step, Cg.webhook, hcid, hv] using hs
        | start => simpa [Cg.step, Cg.webhook, hcid] using hs
        | price => simpa [Cg.step, Cg.webhook, hcid] using hs
        | status => simpa [Cg.step, Cg.webhook, hcid] using hs
        | help => simpa [Cg.step, Cg.webhook, hcid] using hs
        | info => simpa [Cg.step, Cg.webhook, hcid] using hs
        | inrrate => simpa [Cg.step, Cg.webhook, hcid] using hs
        | clear => simpa [Cg.step, Cg.webhook, hcid] using hs
        | otherCmd => simpa [Cg.step, Cg.webhook, hcid] using hs
        | plain => simpa [Cg.step, Cg.webhook, hcid] using hs
      · simpa [Cg.step, Cg.webhook, hcid] using hs

theorem Grp_webhook_isSome (cid : ℤ) (t : MsgText) (m : Grp.Store) (c : ℤ) :
    (Grp.lookup c (Grp.webhook (some ⟨cid, some t⟩) m).1).isSome =
      ((Grp.lookup c m).isSome || decide (cid = c)) := by
  simp only [Grp.webhook]
  by_cases hcid : cid = c
  · subst hcid
    cases hl : Grp.lookup cid m with
    | some a0 => simp [hl, Grp_lookup_setEntry_self]
    | none => simp [hl, Grp_lookup_setEntry_self, Grp_lookup_append]
  · cases hl : (Grp.lookup cid m).isSome
    · simp only [hl, Bool.false_eq_true, if_false,
        Grp_lookup_setEntry_ne _ _ _ hcid, Grp_lookup_append]
      cases Grp.lookup c m <;> simp [hcid]
    · simp [hl, Grp_lookup_setEntry_ne _ _ _ hcid, hcid]

theorem Grp_step_isSome (c : ℤ) (m : Grp.Store) (e : Grp.Ev) :
    (Grp.lookup c (Grp.step m e)).isSome =
      ((Grp.lookup c m).isSome || Grp.hasTextFrom c e) := by
  cases e with
  | tick u =>
    cases u with
    | none => simp [Grp.step, Grp.tick, Grp.hasTextFrom]
    | some p =>
      simp [Grp.step, Grp.tick, Grp.hasTextFrom, Grp_lookup_tick_store]
  | msg w =>
    cases w with
    | none => simp [Grp.step, Grp.webhook, Grp.hasTextFrom]
    | some w =>
      obtain ⟨cid, txt⟩ := w
      cases txt with
      | none => simp [Grp.step, Grp.webhook, Grp.hasTextFrom]
      | some t =>
        simp only [Grp.step, Grp_webhook_isSome]
        simp [Grp.hasTextFrom]

theorem Grp_run_isSome (c : ℤ) :
    ∀ (evs : List Grp.Ev) (m : Grp.Store),
      (Grp.lookup c (Grp.run m evs)).isSome =
        ((Grp.lookup c m).isSome || evs.any (Grp.hasTextFrom c)) := by
  intro evs
  induction evs with
  | nil => intro m; simp [Grp.run]
  | cons e rest ih =>
    intro m
    simp only [Grp.run, List.any_cons]
    rw [ih, Grp_step_isSome]
    simp [Bool.or_assoc]

theorem lowFires_iff (p : ℚ) (o : Option ℚ)
    (hpos : ∀ l, o = some l → 0 < l) :
    lowFires p o = true ↔ ∃ l, o = some l ∧ p ≤ l := by
  cases o with
  | none => simp [lowFires]
  | some l =>
    have h0 : l ≠ 0 := (hpos l rfl).ne'
    simp [lowFires, h0]

theorem highFires_iff (p : ℚ) (o : Option ℚ)
    (hpos : ∀ l, o = some l → 0 < l) :
    highFires p o = true ↔ ∃ l, o = some l ∧ l ≤ p := by
  cases o with
  | none => simp [highFires]
  | some l =>
    have h0 : l ≠ 0 := (hpos l rfl).ne'
    simp [highFires, h0]

theorem Cg_noLowRefire (CHATID : ℤ) :
    ∀ (evs : List Cg.Ev) (s : AlertState), s.low = none →
      (∀ e ∈ evs, Cg.setsLowEv CHATID e = false) →
      Cg.anyLowFire CHATID s evs = false := by
  intro evs
  induction evs with
  | nil => intro s hs he; rfl
  | cons e rest ih =>
    intro s hs he
    obtain ⟨h1, h2⟩ :=
      Cg_step_low_none CHATID s e hs (he e (List.mem_cons_self e rest))
    simp only [Cg.anyLowFire, h2, Bool.false_or]
    exact ih _ h1 (fun x hx => he x (List.mem_cons_of_mem e hx))

theorem Cg_noHighRefire (CHATID : ℤ) :
    ∀ (evs : List Cg.Ev) (s : AlertState), s.high = none →
      (∀ e ∈ evs, Cg.setsHighEv CHATID e = false) →
      Cg.anyHighFire CHATID s evs = false := by
  intro evs
  induction evs with
  | nil => intro s hs he; rfl
  | cons e rest ih =>
    intro s hs he
    obtain ⟨h1, h2⟩ :=
      Cg_step_high_none CHATID s e hs (he e (List.mem_cons_self e rest))
    simp only [Cg.anyHighFire, h2, Bool.false_or]
    exact ih _ h1 (fun x hx => he x (List.mem_cons_of_mem e hx))

theorem Grp_noLowRefire (c : ℤ) :
    ∀ (evs : List Grp.Ev) (m : Grp.Store), Grp.lowOf c m = none →
      (∀ e ∈ evs, Grp.setsLowFor c e = false) →
      Grp.anyLowFireFor c m evs = false := by
  intro evs
  induction evs with
  | nil => intro m hs he; rfl
  | cons e rest ih =>
    intro m hs he
    obtain ⟨h1, h2⟩ :=
      Grp_step_lowOf_none c m e hs (he e (List.mem_cons_self e rest))
    simp only [Grp.anyLowFireFor, h2, Bool.false_or]
    exact ih _ h1 (fun x hx => he x (List.mem_cons_of_mem e hx))

theorem Grp_noHighRefire (c : ℤ) :
    ∀ (evs : List Grp.Ev) (m : Grp.Store), Grp.highOf c m = none →
      (∀ e ∈ evs, Grp.setsHighFor c e = false) →
      Grp.anyHighFireFor c m evs = false := by
  intro evs
  induction evs with
  | nil => intro m hs he; rfl
  | cons e rest ih =>
    intro m hs he
    obtain ⟨h1, h2⟩ :=
      Grp_step_highOf_none c m e hs (he e (List.mem_cons_self e rest))
    simp only [Grp.anyHighFireFor, h2, Bool.false_or]
    exact ih _ h1 (fun x hx => he x (List.mem_cons_of_mem e hx))

/-- C2: on a tick with a fetched price `p`, the low alert send is attempted
exactly when a low threshold is stored and `p ≤ low`, and the high alert
send exactly when a high threshold is stored and `high ≤ p` (stored
thresholds are positive, as the command handlers enforce) — in the
`src/index.js` tick and the group variant's per-chat evaluation; and once a
threshold is null, no later event of any run can fire that alert unless an
accepted `/setlow` (resp. `/sethigh`) occurs, in both the `src/index.js`
machine and the group-variant machine. -/
theorem c2_alert_fires_iff_and_no_refire :
    (∀ (f : Cg.Fetch) (lowOk highOk : Bool) (s : AlertState) (p : ℚ),
       Cg.getDeepNodePrice f = some p →
       (∀ l, s.low = some l → 0 < l) →
       (∀ h, s.high = some h → 0 < h) →
       (((Cg.tick f lowOk highOk s).lowSent = true) ↔
         ∃ l, s.low = some l ∧ p ≤ l) ∧
       (((Cg.tick f lowOk highOk s).highSent = true) ↔
         ∃ h, s.high = some h ∧ h ≤ p)) ∧
    (∀ (p : ℚ) (a : AlertState),
       (∀ l, a.low = some l → 0 < l) →
       (∀ h, a.high = some h → 0 < h) →
       (((Grp.tickOne p a).lowSent = true) ↔
         ∃ l, a.low = some l ∧ p ≤ l) ∧
       (((Grp.tickOne p a).highSent = true) ↔
         ∃ h, a.high = some h ∧ h ≤ p)) ∧
    (∀ (CHATID : ℤ) (s : AlertState) (evs : List Cg.Ev),
       s.low = none → (∀ e ∈ evs, Cg.setsLowEv CHATID e = false) →
       Cg.anyLowFire CHATID s evs = false) ∧
    (∀ (CHATID : ℤ) (s : AlertState) (evs : List Cg.Ev),
       s.high = none → (∀ e ∈ evs, Cg.setsHighEv CHATID e = false) →
       Cg.anyHighFire CHATID s evs = false) ∧
    (∀ (c : ℤ) (m : Grp.Store) (evs : List Grp.Ev),
       Grp.lowOf c m = none → (∀ e ∈ evs, Grp.setsLowFor c e = false) →
       Grp.anyLowFireFor c m evs = false) ∧
    (∀ (c : ℤ) (m : Grp.Store) (evs : List Grp.Ev),
       Grp.highOf c m = none → (∀ e ∈ evs, Grp.setsHighFor c e = false) →
       Grp.anyHighFireFor c m evs = false) := by
  refine ⟨?_, ?_, ?_, ?_, ?_, ?_⟩
  · intro f lowOk highOk s p hpr hplo hphi
    have hl : (Cg.tick f lowOk highOk s).lowSent = lowFires p s.low := by
      simp [Cg.tick, hpr]
    have hh : (Cg.tick f lowOk highOk s).highSent = highFires p s.high := by
      simp [Cg.tick, hpr]
    rw [hl, hh]
    exact ⟨lowFires_iff p s.low hplo, highFires_iff p s.high hphi⟩
  · intro p a hplo hphi
    have hl : (Grp.tickOne p a).lowSent = lowFires p a.low := rfl
    have hh : (Grp.tickOne p a).highSent = highFires p a.high := rfl
    rw [hl, hh]
    exact ⟨lowFires_iff p a.low hplo, highFires_iff p a.high hphi⟩
  · intro CHATID s evs hs he
    exact Cg_noLowRefire CHATID evs s hs he
  · intro CHATID s evs hs he
    exact Cg_noHighRefire CHATID evs s hs he
  · intro c m evs hs he
    exact Grp_noLowRefire c evs m hs he
  · intro c m evs hs he
    exact Grp_noHighRefire c evs m hs he

/-- Witness for C2: the fire conditions evaluated on a concrete crossing
state, and concrete runs in which a cleared alert never re-fires. -/
theorem c2_alert_fires_iff_and_no_refire_witness :
    (((Cg.tick (Cg.Fetch.ok (some 4)) true true
        ⟨some 5, some 3⟩).lowSent = true) ↔
      ∃ l, (some (5 : ℚ)) = some l ∧ (4 : ℚ) ≤ l) ∧
    (((Grp.tickOne 4 ⟨some 5, some 3⟩).highSent = true) ↔
      ∃ h, (some (3 : ℚ)) = some h ∧ h ≤ (4 : ℚ)) ∧
    Cg.anyLowFire 9 ⟨none, some 3⟩
      [Cg.Ev.tick (Cg.Fetch.ok (some 1)) true true,
       Cg.Ev.msg (some 9) (some MsgText.status)] = false ∧
    Cg.anyHighFire 9 ⟨some 2, none⟩
      [Cg.Ev.tick (Cg.Fetch.ok (some 99)) true true] = false ∧
    Grp.anyLowFireFor 5 [(5, ⟨none, some 3⟩)]
      [Grp.Ev.tick (some 1),
       Grp.Ev.msg (some ⟨5, some (MsgText.sethigh (some 8))⟩)] = false ∧
    Grp.anyHighFireFor 5 [(5, ⟨some 2, none⟩)]
      [Grp.Ev.tick (some 99)] = false :=
  ⟨((c2_alert_fires_iff_and_no_refire.1 (Cg.Fetch.ok (some 4)) true true
      ⟨some 5, some 3⟩ 4 (by decide)
      (fun l hl => by cases hl; norm_num)
      (fun h hh => by cases hh; norm_num)).1),
   ((c2_alert_fires_iff_and_no_refire.2.1 4 ⟨some 5, some 3⟩
      (fun l hl => by cases hl; norm_num)
      (fun h hh => by cases hh; norm_num)).2),
   (c2_alert_fires_iff_and_no_refire.2.2.1 9 ⟨none, some 3⟩ _ rfl
      (by decide)),
   (c2_alert_fires_iff_and_no_refire.2.2.2.1 9 ⟨some 2, none⟩ _ rfl
      (by decide)),
   (c2_alert_fires_iff_and_no_refire.2.2.2.2.1 5 [(5, ⟨none, some 3⟩)] _
      (by decide) (by decide)),
   (c2_alert_fires_iff_and_no_refire.2.2.2.2.2 5 [(5, ⟨some 2, none⟩)] _
      (by decide) (by decide))⟩

/-- C8 counterexample: a chat that has sent only the non-command text
message `plain` does get an alert record in `groupAlerts` — the claim's
"if and only if that chat has previously sent at least one command" fails,
because the handler creates the record for any message with text before
dispatching. -/
theorem c8_counterexample :
    (Grp.lookup 5 (Grp.run []
        [Grp.Ev.msg (some ⟨5, some MsgText.plain⟩)])).isSome = true ∧
    MsgText.isCommand MsgText.plain = false := by
  decide

/-- C8 (amended): a chat identifier has an alert record in `groupAlerts` if
and only if that chat has previously sent at least one webhook message
bearing text (command or not); the record is created on the chat's first
such message and, once present, survives every later event — no code path
removes it (`/clear` only nulls the fields). -/
theorem c8_record_iff_textful_message :
    (∀ (evs : List Grp.Ev) (c : ℤ),
       (Grp.lookup c (Grp.run [] evs)).isSome = true ↔
         ∃ e ∈ evs, Grp.hasTextFrom c e = true) ∧
    (∀ (m : Grp.Store) (evs : List Grp.Ev) (c : ℤ),
       (Grp.lookup c m).isSome = true →
       (Grp.lookup c (Grp.run m evs)).isSome = true) := by
  constructor
  · intro evs c
    rw [Grp_run_isSome]
    simp [Grp.lookup, List.any_eq_true]
  · intro m evs c h
    rw [Grp_run_isSome]
    simp [h]

/-- Witness for C8: a record present before a run of further events is still
present afterwards. -/
theorem c8_record_iff_textful_message_witness :
    (Grp.lookup 7 (Grp.run [(7, ⟨none, none⟩)]
        [Grp.Ev.tick (some 1),
         Grp.Ev.msg (some ⟨7, some MsgText.clear⟩)])).isSome = true :=
  c8_record_iff_textful_message.2 [(7, ⟨none, none⟩)]
    [Grp.Ev.tick (some 1), Grp.Ev.msg (some ⟨7, some MsgText.clear⟩)] 7
    (by decide)

end DeepNodeBot
